import Mathlib

/-!
Shallow embedding of the stateful core of `src/remote_pc.py` (PC Remote Control).

Conventions used throughout:
- Timestamps (`datetime.now()`) are modelled as integers counting milliseconds,
  so `timedelta(minutes=1)` is `60000` and `timedelta(seconds=2)` is `2000`.
- External command invocations (`_execute_command`, `subprocess.Popen`) are
  modelled structurally by the `Cmd` type; handlers return the list of commands
  they issue, and the boolean outcome of an execution is passed in as a
  parameter (the executor is an external collaborator).
- Python dictionaries keyed by strings are modelled as association lists,
  Python sets of strings as duplicate-free lists, `None` as `Option.none`.
- Fallible external probes (psutil, pycaw) are modelled as `Option` inputs:
  `none` stands for the call raising an exception.
-/

namespace RemotePC

/-- A Python value stored in a `Config` attribute (only the shapes that occur
in `Config.DEFAULTS`: strings, ints and bools). -/
inductive PyVal where
  | str (s : String)
  | int (n : Int)
  | bool (b : Bool)
deriving Repr, DecidableEq

/-- The `Config.DEFAULTS` dictionary of `remote_pc.py`. The two playback and
recording device names are probed from the sound subsystem at import time, so
the model takes them as parameters. -/
def Config.DEFAULTS (playbackDevice1 recordingDevice1 : String) :
    List (String × PyVal) :=
  [("USERNAME", .str "admin"),
   ("PASSWORD", .str "password"),
   ("SECRET_KEY", .str "your-secret-key"),
   ("HOST", .str "0.0.0.0"),
   ("PORT", .int 5000),
   ("DEBUG", .bool false),
   ("LOGGING_ENABLED", .bool true),
   ("SESSION_TIMEOUT_MINUTES", .int 30),
   ("MAX_REQUESTS_PER_MINUTE", .int 120),
   ("PLAYBACK_DEVICE_1", .str playbackDevice1),
   ("PLAYBACK_DEVICE_2", .str "HeadPhone"),
   ("RECORDING_DEVICE_1", .str recordingDevice1)]

/-- A constructed `Config` object: the attributes `Config.__init__` set via
`setattr`, as an association list from attribute name to value. -/
structure ConfigObj where
  attrs : List (String × PyVal)
deriving Repr, DecidableEq

/-- Python attribute access `getattr(config, name)`: `none` models the
`AttributeError` raised when no such attribute was ever set. -/
def ConfigObj.getattr (c : ConfigObj) (name : String) : Option PyVal :=
  c.attrs.lookup name

/-- `Config.__init__`: for every key of `DEFAULTS`, set the attribute to the
value found in the config file (`config_data.get(key, value)`), falling back
to the default. `configData` models the parsed `config.json`. -/
def Config.init (configData : List (String × PyVal))
    (playbackDevice1 recordingDevice1 : String) : ConfigObj :=
  ⟨(Config.DEFAULTS playbackDevice1 recordingDevice1).map
      (fun kv => (kv.1, (configData.lookup kv.1).getD kv.2))⟩

/-- An external command issued through the Command Executor or `Popen`
(`PCRemoteControl._execute_command` / `subprocess.Popen`). The nircmd
executable path prefix is left implicit. -/
inductive Cmd where
  | sendkeypress (keys : String)
  | sendkey (key : String) (direction : String)
  | taskkill (exe : String)
  | popen (cmdline : String)
deriving Repr, DecidableEq

/-! ## Rate limiter (`PCRemoteControl._rate_limit_check`, lines 95-102)

The state is `self.request_counts[client_ip]`, this client's list of request
timestamps; the configured budget is `self.config.MAX_REQUESTS_PER_MINUTE`. -/

/-- One call of `_rate_limit_check` for a given client: prune entries older
than `timedelta(minutes=1)`, reject without recording when the pruned count
already reaches the budget, otherwise record `now` and accept. Returns the
allow/deny boolean together with the client's updated timestamp list. -/
def rate_limit_check (maxPerMinute : Nat) (counts : List Int) (now : Int) :
    Bool × List Int :=
  let pruned := counts.filter (fun t => decide (now - 60000 < t))
  if maxPerMinute ≤ pruned.length then (false, pruned)
  else (true, pruned ++ [now])

/-- Run a sequence of rate-limit checks for one client at the given request
times, threading the timestamp list through; returns the list of allow/deny
outcomes and the final timestamp list. -/
def run_rate_limit (maxPerMinute : Nat) (counts : List Int)
    (times : List Int) : List Bool × List Int :=
  match times with
  | [] => ([], counts)
  | t :: ts =>
    let step := rate_limit_check maxPerMinute counts t
    let rest := run_rate_limit maxPerMinute step.2 ts
    (step.1 :: rest.1, rest.2)

/-! ## Session guard (`before_request`, lines 111-126, and `login`/`logout`) -/

/-- The Flask session cookie contents used by the program: key `logged_in`
(set by `login`) and key `last_activity` (read and refreshed by
`before_request`); `none` models an absent key. -/
structure Session where
  logged_in : Option Bool
  last_activity : Option Int
deriving Repr, DecidableEq

/-- Outcome of the `before_request` hook: an early error response, a redirect
to the login page, normal continuation, or an unhandled Python
`AttributeError` escaping the hook. -/
inductive BeforeResponse where
  | disabledError
  | rateLimitError
  | redirectLogin
  | proceed
  | attributeError (name : String)
deriving Repr, DecidableEq

/-- The `before_request` hook: the tray-disable gate, the rate-limit gate,
then the session-expiry check.  The expiry check runs only when both
`logged_in` and `last_activity` keys are present; it reads
`self.config.SESSION_TIMEOUT`, an attribute `Config` never sets (the config
key is `SESSION_TIMEOUT_MINUTES`), which in Python raises `AttributeError`.
Returns the response, the client's updated request-count list and the updated
session. -/
def before_request (app_enabled : Bool) (endpointIsStatic : Bool)
    (cfg : ConfigObj) (maxPerMinute : Nat) (counts : List Int) (now : Int)
    (s : Session) : BeforeResponse × List Int × Session :=
  if ¬app_enabled ∧ ¬endpointIsStatic then (.disabledError, counts, s)
  else
    let rl := rate_limit_check maxPerMinute counts now
    if ¬rl.1 then (.rateLimitError, rl.2, s)
    else
      match s.logged_in, s.last_activity with
      | some _, some la =>
        match cfg.getattr "SESSION_TIMEOUT" with
        | some (.int timeoutMinutes) =>
          if now - la > timeoutMinutes * 60000 then
            (.redirectLogin, rl.2, ⟨none, none⟩)
          else
            (.proceed, rl.2, { s with last_activity := some now })
        | _ => (.attributeError "SESSION_TIMEOUT", rl.2, s)
      | _, _ => (.proceed, rl.2, s)

/-- The `login` route on a POST: when the submitted form credentials match
`config.USERNAME` and `config.PASSWORD`, set `session["logged_in"] = True`
and redirect (second component `true`); otherwise re-render the login page.
No other session key is touched. -/
def login (cfgUsername cfgPassword formUsername formPassword : String)
    (s : Session) : Session × Bool :=
  if formUsername = cfgUsername ∧ formPassword = cfgPassword then
    ({ s with logged_in := some true }, true)
  else (s, false)

/-! ## Process presence cache (`_update_running_apps_cache`, lines 88-93) -/

/-- The `self.cache_ttl` constant: `timedelta(seconds=2)` in milliseconds. -/
def cache_ttl : Int := 2000

/-- Python `str.lower()`, character by character. -/
def pyLower (s : String) : String :=
  String.mk (s.toList.map Char.toLower)

/-- The process-presence snapshot: `self.running_apps_cache` (a set of
lowercase process names) and `self.last_cache_update`. -/
structure CacheState where
  running_apps_cache : List String
  last_cache_update : Int
deriving Repr, DecidableEq

/-- One call of `_update_running_apps_cache`.  `probe` is the result of the
System Probe (`psutil.process_iter`): `none` when the call raises, otherwise
the raw process names (each possibly `None`).  On a raised probe the
`except Exception: pass` handler leaves cache and timestamp untouched. -/
def update_running_apps_cache (force : Bool) (now : Int)
    (probe : Option (List (Option String))) (st : CacheState) : CacheState :=
  if ¬force ∧ now - st.last_cache_update < cache_ttl then st
  else
    match probe with
    | none => st
    | some procs =>
      { running_apps_cache :=
          ((procs.filterMap id).filter (fun n => !n.isEmpty)).map pyLower,
        last_cache_update := now }

/-- Membership test `process_name in self.running_apps_cache` used by the
routes to decide whether an app is running. -/
def is_running (process_name : String) (st : CacheState) : Bool :=
  st.running_apps_cache.contains process_name

/-! ## Volume (`_set_volume`, lines 365-375) -/

/-- A `{success, message}` response dictionary. -/
structure SimpleResult where
  success : Bool
  message : String
deriving Repr, DecidableEq

/-- The `_set_volume` handler.  `audioOk` models whether the pycaw audio
interface chain succeeds (its failure is the only exception source); `errMsg`
is `str(e)` for that case.  The second component is the master volume level
actually applied (`SetMasterVolumeLevelScalar(value / 100.0)` scaled back to
0-100), `none` when nothing was applied. -/
def set_volume (audioOk : Bool) (errMsg : String) (value : Int) :
    SimpleResult × Option Int :=
  if audioOk then
    let v := max 0 (min 100 value)
    ({ success := true, message := "Volume set to " ++ toString v ++ "%" },
     some v)
  else
    ({ success := false, message := errMsg }, none)

/-! ## Modifier state machine (lines 56-67 and 300-351)

The relevant instance attributes from `PCRemoteControl.__init__`:
`self.modifier_key_timer` (a `threading.Timer` handle or `None`),
`self.active_modifier` (a string or `None`; initialised to `None` and never
assigned anywhere else in the program), and `self.active_modifiers` (a set).

Timers are given identities: `liveTimers` is the list of identifiers of
`threading.Timer` objects that have been started and neither cancelled nor
fired, and `modifier_key_timer` is the identifier held by the instance
attribute (`none` models `None`). -/

/-- The modifier-machine portion of the `PCRemoteControl` instance state. -/
structure ModifierState where
  active_modifier : Option String
  active_modifiers : List String
  modifier_key_timer : Option Nat
  liveTimers : List Nat
  nextTimerId : Nat
deriving Repr, DecidableEq

/-- The state right after `PCRemoteControl.__init__`: no held modifiers, no
timer, `active_modifier = None`. -/
def initState : ModifierState :=
  { active_modifier := none
    active_modifiers := []
    modifier_key_timer := none
    liveTimers := []
    nextTimerId := 0 }

/-- The `MODIFIER_MAP` dictionary of the source, as an association list. -/
def MODIFIER_MAP : List (String × String) :=
  [("alt", "alt"), ("ctrl", "leftctrl"), ("shift", "leftshift")]

/-- Dictionary access `MODIFIER_MAP[mod]`; every reachable call site passes
one of the three mapped modifier names. -/
def mmapGet (m : String) : String :=
  (MODIFIER_MAP.lookup m).getD ""

/-- Python `str.capitalize()`: first character uppercased, the rest
lowercased. -/
def pyCapitalize (s : String) : String :=
  match s.toList with
  | [] => ""
  | c :: cs => String.mk (c.toUpper :: cs.map Char.toLower)

/-- Python truthiness of an `Optional[str]`: `None` and the empty string are
falsy. -/
def pyTruthyStr : Option String → Bool
  | none => false
  | some s => !s.isEmpty

/-- The guarded cancel appearing in `_handle_modifier_press` and
`_clear_modifier_state`:
`if self.modifier_key_timer and self.modifier_key_timer.is_alive():
self.modifier_key_timer.cancel()`.  Cancelling removes the tracked timer from
the live set; the handle itself is not reassigned. -/
def cancelTrackedTimer (s : ModifierState) : ModifierState :=
  match s.modifier_key_timer with
  | none => s
  | some id => if id ∈ s.liveTimers
      then { s with liveTimers := s.liveTimers.erase id }
      else s

/-- Starting a fresh auto-release timer:
`self.modifier_key_timer = threading.Timer(4.1, self._clear_modifier_state)`
followed by `.start()`.  A new timer identity becomes live and tracked. -/
def scheduleModifierTimer (s : ModifierState) : ModifierState :=
  { s with modifier_key_timer := some s.nextTimerId
           liveTimers := s.liveTimers ++ [s.nextTimerId]
           nextTimerId := s.nextTimerId + 1 }

/-- An action-handler response `{success, message, activeModifiers}`. -/
structure ActionResult where
  success : Bool
  message : String
  activeModifiers : List String
deriving Repr, DecidableEq

/-- Resulting state, response dictionary and issued commands of a modifier
operation. -/
structure ModStep where
  state : ModifierState
  result : ActionResult
  cmds : List Cmd
deriving Repr, DecidableEq

/-- `_clear_modifier_state` (lines 300-310): send a key-up for every held
modifier, cancel the tracked timer if alive, empty the set and set the timer
handle to `None`.  Returns the new state and the issued commands. -/
def clear_modifier_state (s : ModifierState) : ModifierState × List Cmd :=
  let cmds := s.active_modifiers.map (fun m => Cmd.sendkey (mmapGet m) "up")
  let s1 := cancelTrackedTimer s
  ({ s1 with active_modifiers := [], modifier_key_timer := none }, cmds)

/-- `_handle_modifier_press` (lines 312-330): cancel the pending timer if
alive; remove the modifier and send key-up if held, else add it and send
key-down; if the resulting set is non-empty start a fresh 4.1 s auto-release
timer.  The response always reports success and the resulting set. -/
def handle_modifier_press (modifier : String) (s : ModifierState) : ModStep :=
  let s1 := cancelTrackedTimer s
  let removing := modifier ∈ s1.active_modifiers
  let s2 :=
    if removing then
      { s1 with active_modifiers := s1.active_modifiers.erase modifier }
    else
      { s1 with active_modifiers := s1.active_modifiers ++ [modifier] }
  let pressCmd :=
    if removing then Cmd.sendkey (mmapGet modifier) "up"
    else Cmd.sendkey (mmapGet modifier) "down"
  let message :=
    if removing then pyCapitalize modifier ++ " released."
    else pyCapitalize modifier ++ " is active."
  let s3 := if s2.active_modifiers ≠ [] then scheduleModifierTimer s2 else s2
  { state := s3
    result := { success := true, message := message
                activeModifiers := s3.active_modifiers }
    cmds := [pressCmd] }

/-- `_handle_standard_key_press` (lines 332-351).  The `time.sleep(0.1)`
pre-delay does not affect the modelled state.  The branch condition is the
truthiness of `self.active_modifier` (the attribute that is always `None`),
not of `self.active_modifiers`; in the truthy branch a combined command is
built from the held set, `_clear_modifier_state` runs, and then the combo is
executed; in the falsy branch a plain key press is executed and the modifier
state is untouched.  `execOk` is the boolean returned by
`_execute_command` for the final command. -/
def handle_standard_key_press (key_command message : String) (execOk : Bool)
    (s : ModifierState) : ModStep :=
  if pyTruthyStr s.active_modifier then
    let modifier_keys := s.active_modifiers.map mmapGet
    let combo := String.intercalate "+" modifier_keys
    let full_command := Cmd.sendkeypress (combo ++ "+" ++ key_command)
    let success_message := "Sent " ++
      String.intercalate "+" (s.active_modifiers.map pyCapitalize) ++ "+" ++
      message
    let cleared := clear_modifier_state s
    { state := cleared.1
      result := { success := execOk
                  message :=
                    if execOk then success_message else "Command failed"
                  activeModifiers := cleared.1.active_modifiers }
      cmds := cleared.2 ++ [full_command] }
  else
    { state := s
      result := { success := execOk
                  message := if execOk then "Sent " ++ message
                             else "Command failed"
                  activeModifiers := s.active_modifiers }
      cmds := [Cmd.sendkeypress key_command] }

/-- The auto-release timer firing: the tracked timer, if live, stops being
live (it runs) and its callback `_clear_modifier_state` executes. -/
def modifier_timer_fire (s : ModifierState) : ModifierState × List Cmd :=
  match s.modifier_key_timer with
  | none => (s, [])
  | some id =>
    if id ∈ s.liveTimers then
      clear_modifier_state { s with liveTimers := s.liveTimers.erase id }
    else (s, [])

/-- A sequence of modifier-toggle requests applied in order. -/
def toggle_sequence (ms : List String) (s : ModifierState) : ModifierState :=
  ms.foldl (fun st m0 => (handle_modifier_press m0 st).state) s

/-- The modifier-machine invariant claimed by the specification: the held set
is non-empty exactly when a live auto-release timer exists, at most one timer
is live at any time, and every live timer is the tracked one. -/
def modInvariant (s : ModifierState) : Prop :=
  (s.active_modifiers ≠ [] ↔ s.liveTimers ≠ []) ∧
  s.liveTimers.length ≤ 1 ∧
  ∀ id ∈ s.liveTimers, s.modifier_key_timer = some id

instance (s : ModifierState) : Decidable (modInvariant s) := by
  unfold modInvariant; infer_instance

/-! ## App registry and toggle (`_define_apps`, lines 78-86, and
`app_toggle`, lines 213-249) -/

/-- One entry of the `_define_apps` registry. -/
structure AppConfig where
  exe : String
  process_name : Option String
  cmd : String
  closable : Option Bool
deriving Repr, DecidableEq

/-- The static `_define_apps` registry.  `home` abstracts
`pathlib.Path.home()` appearing in the discord launch command. -/
def define_apps (home : String) : List (String × AppConfig) :=
  [("discord",
    ⟨"Discord.exe", some "discord.exe",
     "\"" ++ home ++ "/AppData/Local/Discord/Update.exe\" --processStart Discord.exe",
     some true⟩),
   ("steam",
    ⟨"steam.exe", some "steam.exe",
     "C:/Program Files (x86)/Steam/Steam.exe", some true⟩),
   ("npp",
    ⟨"notepad++.exe", some "notepad++.exe", "start notepad++", some true⟩),
   ("chrome",
    ⟨"chrome.exe", some "chrome.exe", "start chrome", some true⟩),
   ("mediaplayer",
    ⟨"mediaplayer.exe", some "mediaplayer.exe", "start mediaplayer",
     some true⟩),
   ("task_manager",
    ⟨"Taskmgr.exe", some "taskmgr.exe", "taskmgr", some false⟩)]

/-- Python `str.title()`: the first letter of every run of cased characters
is uppercased, the following cased characters are lowercased. -/
def pyTitle (s : String) : String :=
  String.mk
    ((s.toList.foldl
        (fun (acc : List Char × Bool) c =>
          if c.isAlpha then
            (acc.1 ++ [if acc.2 then c.toLower else c.toUpper], true)
          else (acc.1 ++ [c], false))
        ([], false)).1)

/-- A `/api/app/<app_name>/toggle` response: `running` is `none` for the
"App not configured" response, which carries no `running` field. -/
structure AppToggleResult where
  success : Bool
  message : String
  running : Option Bool
deriving Repr, DecidableEq

/-- The `app_toggle` route handler.  `probe1` and `probe2` are the System
Probe results of the two forced cache refreshes; `taskkillOk` is the
`_execute_command` outcome of the taskkill command; `popenOk`/`popenErr`
model `subprocess.Popen` succeeding or raising with message `str(e)`.
Returns the response, the resulting cache state and the commands issued. -/
def app_toggle (home : String) (app_name : String)
    (probe1 probe2 : Option (List (Option String)))
    (taskkillOk popenOk : Bool) (popenErr : String) (now1 now2 : Int)
    (st : CacheState) : AppToggleResult × CacheState × List Cmd :=
  match (define_apps home).lookup app_name with
  | none => ({ success := false, message := "App not configured",
               running := none }, st, [])
  | some appCfg =>
    let display_name := pyTitle app_name
    let process_name := pyLower (appCfg.process_name.getD appCfg.exe)
    let is_closable := appCfg.closable.getD true
    let st1 := update_running_apps_cache true now1 probe1 st
    let isRunningNow := process_name ∈ st1.running_apps_cache
    if isRunningNow then
      if ¬is_closable then
        ({ success := true, message := "cannot be close " ++ display_name,
           running := some true }, st1, [])
      else
        let success := taskkillOk
        let message := if success then display_name ++ " closed."
                       else "Failed to close " ++ display_name ++ "."
        let st2 := update_running_apps_cache true now2 probe2 st1
        ({ success := success, message := message
           running := some (if success then false else true) }, st2,
         [Cmd.taskkill appCfg.exe])
    else
      let success := popenOk
      let message := if success then display_name ++ " started."
                     else "Failed to start " ++ display_name ++ ": " ++
                          popenErr
      let st2 := update_running_apps_cache true now2 probe2 st1
      ({ success := success, message := message
         running := some (if success then true else false) }, st2,
       [Cmd.popen appCfg.cmd])

/-! ## Helper lemmas -/

/-- Cancelling the tracked timer does not change the held-modifier set. -/
lemma cancelTracked_active (s : ModifierState) :
    (cancelTrackedTimer s).active_modifiers = s.active_modifiers := by
  rcases hmt : s.modifier_key_timer with _ | id
  · simp [cancelTrackedTimer, hmt]
  · simp only [cancelTrackedTimer, hmt]
    split <;> rfl

/-- A list of live timers of length at most one containing an element is
that singleton. -/
lemma live_singleton_of_mem {l : List Nat} {id : Nat} (hlen : l.length ≤ 1)
    (hm : id ∈ l) : l = [id] := by
  cases l with
  | nil => cases hm
  | cons a t =>
    cases t with
    | nil => rw [List.mem_singleton.mp hm]
    | cons b t2 => simp at hlen

/-- Under the machine invariant, the guarded cancel leaves no live timer. -/
lemma cancelTracked_live_nil (s : ModifierState) (h : modInvariant s) :
    (cancelTrackedTimer s).liveTimers = [] := by
  obtain ⟨_, hlen, htr⟩ := h
  rcases hmt : s.modifier_key_timer with _ | id
  · simp only [cancelTrackedTimer, hmt]
    cases hl : s.liveTimers with
    | nil => rfl
    | cons a t =>
      have ha := htr a (by rw [hl]; exact List.mem_cons_self a t)
      rw [hmt] at ha
      cases ha
  · simp only [cancelTrackedTimer, hmt]
    by_cases hmem : id ∈ s.liveTimers
    · rw [if_pos hmem]
      simp [live_singleton_of_mem hlen hmem]
    · rw [if_neg hmem]
      cases hl : s.liveTimers with
      | nil => rfl
      | cons a t =>
        have ha := htr a (by rw [hl]; exact List.mem_cons_self a t)
        rw [hmt] at ha
        have haid : id = a := by injection ha
        refine absurd ?_ hmem
        rw [hl, haid]
        exact List.mem_cons_self a t

/-- If the tracked-timer list is already empty, the guarded cancel keeps it
empty. -/
lemma cancelTracked_live_of_nil (s : ModifierState)
    (hl : s.liveTimers = []) :
    (cancelTrackedTimer s).liveTimers = [] := by
  rcases hmt : s.modifier_key_timer with _ | id <;>
    simp [cancelTrackedTimer, hmt, hl]

/-- The set produced by one modifier toggle: erase when held, append when
not. -/
lemma toggle_set_eq (m : String) (s : ModifierState) :
    (handle_modifier_press m s).state.active_modifiers =
      if m ∈ s.active_modifiers then s.active_modifiers.erase m
      else s.active_modifiers ++ [m] := by
  by_cases hm : m ∈ s.active_modifiers
  all_goals
    simp [handle_modifier_press, cancelTracked_active, scheduleModifierTimer,
      hm]
  all_goals split <;> rfl

/-- Unfolding one step of a toggle sequence. -/
lemma toggle_sequence_cons (m : String) (ms : List String)
    (s : ModifierState) :
    toggle_sequence (m :: ms) s =
      toggle_sequence ms (handle_modifier_press m s).state := rfl

/-- Toggling a duplicate-free list of modifiers none of which is currently
held appends them all to the held set. -/
lemma toggle_sequence_fresh :
    ∀ (ms : List String) (s : ModifierState), ms.Nodup →
      (∀ x ∈ ms, x ∉ s.active_modifiers) →
      (toggle_sequence ms s).active_modifiers = s.active_modifiers ++ ms := by
  intro ms
  induction ms with
  | nil => intro s _ _; simp [toggle_sequence]
  | cons m tail ih =>
    intro s hnd hfr
    rw [toggle_sequence_cons]
    have hm : m ∉ s.active_modifiers := hfr m (List.mem_cons_self m tail)
    have hset : (handle_modifier_press m s).state.active_modifiers =
        s.active_modifiers ++ [m] := by
      rw [toggle_set_eq, if_neg hm]
    have hfr2 : ∀ x ∈ tail,
        x ∉ (handle_modifier_press m s).state.active_modifiers := by
      intro x hx
      rw [hset]
      simp only [List.mem_append, List.mem_singleton]
      rintro (h1 | h2)
      · exact hfr x (List.mem_cons_of_mem m hx) h1
      · exact (List.nodup_cons.mp hnd).1 (h2 ▸ hx)
    rw [ih (handle_modifier_press m s).state (List.nodup_cons.mp hnd).2 hfr2,
      hset]
    simp

/-- Invariant preservation by one modifier toggle. -/
lemma modInvariant_toggle (m : String) (s : ModifierState)
    (h : modInvariant s) :
    modInvariant (handle_modifier_press m s).state := by
  have hlive := cancelTracked_live_nil s h
  by_cases hm : m ∈ (cancelTrackedTimer s).active_modifiers
  · by_cases he : (cancelTrackedTimer s).active_modifiers.erase m = []
    · simp [handle_modifier_press, hm, he, modInvariant, hlive]
    · simp [handle_modifier_press, hm, he, modInvariant,
        scheduleModifierTimer, hlive]
  · simp [handle_modifier_press, hm, modInvariant, scheduleModifierTimer,
      hlive]

/-- Invariant preservation by `_clear_modifier_state`. -/
lemma modInvariant_clear (s : ModifierState) (h : modInvariant s) :
    modInvariant (clear_modifier_state s).1 := by
  have hlive := cancelTracked_live_nil s h
  simp [clear_modifier_state, modInvariant, hlive]

/-- Invariant preservation by a standard key press (both branches). -/
lemma modInvariant_press (key msg : String) (ok : Bool) (s : ModifierState)
    (h : modInvariant s) :
    modInvariant (handle_standard_key_press key msg ok s).state := by
  by_cases hp : pyTruthyStr s.active_modifier = true
  · have hst : (handle_standard_key_press key msg ok s).state =
        (clear_modifier_state s).1 := by
      simp [handle_standard_key_press, hp]
    rw [hst]
    exact modInvariant_clear s h
  · have hst : (handle_standard_key_press key msg ok s).state = s := by
      simp [handle_standard_key_press, hp]
    rw [hst]
    exact h

/-- Invariant preservation by the auto-release timer firing. -/
lemma modInvariant_fire (s : ModifierState) (h : modInvariant s) :
    modInvariant (modifier_timer_fire s).1 := by
  rcases hmt : s.modifier_key_timer with _ | id
  · simpa [modifier_timer_fire, hmt] using h
  · simp only [modifier_timer_fire, hmt]
    by_cases hmem : id ∈ s.liveTimers
    · rw [if_pos hmem]
      have hsingle := live_singleton_of_mem h.2.1 hmem
      have hl2 : (⟨s.active_modifier, s.active_modifiers, some id,
          s.liveTimers.erase id, s.nextTimerId⟩ :
          ModifierState).liveTimers = [] := by
        show s.liveTimers.erase id = []
        rw [hsingle]
        simp
      simp [clear_modifier_state, modInvariant,
        cancelTracked_live_of_nil _ hl2]
    · rw [if_neg hmem]
      exact h

/-- Pruning removes nothing when every recorded timestamp is inside the
60-second window of the current time. -/
lemma filter_window_all (now : Int) (l : List Int)
    (h : ∀ x ∈ l, now - 60000 < x) :
    l.filter (fun t => decide (now - 60000 < t)) = l :=
  List.filter_eq_self.mpr fun a ha => decide_eq_true (h a ha)

/-- Pruning removes everything when every recorded timestamp is at least a
full window old. -/
lemma filter_window_none (now : Int) (l : List Int)
    (h : ∀ x ∈ l, x ≤ now - 60000) :
    l.filter (fun t => decide (now - 60000 < t)) = [] := by
  rw [List.filter_eq_nil_iff]
  intro a ha
  have := h a ha
  simp only [decide_eq_true_eq]
  omega

/-- Unfolding one step of a run of rate-limit checks. -/
lemma run_rate_limit_cons (maxPerMinute : Nat) (log : List Int) (t : Int)
    (ts : List Int) :
    run_rate_limit maxPerMinute log (t :: ts) =
      ((rate_limit_check maxPerMinute log t).1 ::
         (run_rate_limit maxPerMinute
           (rate_limit_check maxPerMinute log t).2 ts).1,
       (run_rate_limit maxPerMinute
         (rate_limit_check maxPerMinute log t).2 ts).2) := rfl

/-- Peeling the first element off the expected accept/reject pattern. -/
lemma expected_results_cons (len maxPerMinute n : Nat) :
    (List.range (n + 1)).map (fun i => decide (len + i < maxPerMinute)) =
      decide (len < maxPerMinute) ::
        (List.range n).map
          (fun i => decide (len + 1 + i < maxPerMinute)) := by
  rw [List.range_succ_eq_map, List.map_cons, List.map_map]
  congr 1
  apply List.map_congr_left
  intro i _
  simp only [Function.comp_apply]
  exact decide_eq_decide.mpr (by omega)

/-- A burst of requests whose times stay within one second of `t0`, run
against a log whose entries also lie near `t0`, is pruned by nothing: the
i-th request is accepted exactly when fewer than `maxPerMinute` timestamps
are recorded, and all recorded timestamps stay near `t0`. -/
lemma run_burst_aux (maxPerMinute : Nat) (t0 : Int) :
    ∀ (ts log : List Int),
      (∀ t ∈ ts, t0 ≤ t ∧ t ≤ t0 + 1000) →
      (∀ x ∈ log, t0 - 1000 ≤ x ∧ x ≤ t0 + 1000) →
      (run_rate_limit maxPerMinute log ts).1 =
        (List.range ts.length).map
          (fun i => decide (log.length + i < maxPerMinute)) ∧
      ∀ x ∈ (run_rate_limit maxPerMinute log ts).2,
        t0 - 1000 ≤ x ∧ x ≤ t0 + 1000 := by
  intro ts
  induction ts with
  | nil => intro log _ hlog; exact ⟨rfl, hlog⟩
  | cons t ts ih =>
    intro log hts hlog
    have ht := hts t (List.mem_cons_self t ts)
    have hts2 : ∀ u ∈ ts, t0 ≤ u ∧ u ≤ t0 + 1000 :=
      fun u hu => hts u (List.mem_cons_of_mem t hu)
    have hprune : log.filter (fun x => decide (t - 60000 < x)) = log :=
      filter_window_all t log (fun x hx => by have := hlog x hx; omega)
    by_cases hc : maxPerMinute ≤ log.length
    · have hstep : rate_limit_check maxPerMinute log t = (false, log) := by
        simp only [rate_limit_check, hprune]
        rw [if_pos hc]
      obtain ⟨ihr, ihl⟩ := ih log hts2 hlog
      rw [run_rate_limit_cons, hstep]
      refine ⟨?_, ?_⟩
      · show false :: (run_rate_limit maxPerMinute log ts).1 = _
        rw [ihr, List.length_cons, expected_results_cons]
        congr 1
        · exact (decide_eq_false (by omega)).symm
        · apply List.map_congr_left
          intro i _
          rw [decide_eq_false (by omega), decide_eq_false (by omega)]
      · show ∀ x ∈ (run_rate_limit maxPerMinute log ts).2, _
        exact ihl
    · have hstep : rate_limit_check maxPerMinute log t =
          (true, log ++ [t]) := by
        simp only [rate_limit_check, hprune]
        rw [if_neg hc]
      have hlog2 : ∀ x ∈ log ++ [t], t0 - 1000 ≤ x ∧ x ≤ t0 + 1000 := by
        intro x hx
        rcases List.mem_append.mp hx with h1 | h1
        · exact hlog x h1
        · rw [List.mem_singleton.mp h1]; omega
      obtain ⟨ihr, ihl⟩ := ih (log ++ [t]) hts2 hlog2
      rw [run_rate_limit_cons, hstep]
      refine ⟨?_, ?_⟩
      · show true :: (run_rate_limit maxPerMinute (log ++ [t]) ts).1 = _
        rw [ihr, List.length_cons, expected_results_cons]
        congr 1
        · exact (decide_eq_true (by omega)).symm
        · simp [List.length_append]
      · show ∀ x ∈ (run_rate_limit maxPerMinute (log ++ [t]) ts).2, _
        exact ihl

/-- The accept/reject pattern of a burst of `n + 1` requests starting from
an empty log: `n` accepts followed by one reject. -/
lemma range_map_decide (n : Nat) :
    (List.range (n + 1)).map (fun i => decide (0 + i < n)) =
      List.replicate n true ++ [false] := by
  rw [List.range_succ, List.map_append]
  congr 1
  · refine List.eq_replicate_iff.mpr ⟨by simp, ?_⟩
    intro b hb
    simp only [List.mem_map, List.mem_range] at hb
    obtain ⟨i, hi, rfl⟩ := hb
    exact decide_eq_true (by omega)
  · simp only [List.map_cons, List.map_nil]
    rw [decide_eq_false (by omega)]

/-! ## Theorems for the claims -/

/-- C1: the claim says a standard key press on a non-empty modifier set
issues one combined command and clears the set.  The code instead tests
`self.active_modifier` (always `None`), so after `toggle_modifier(alt)` a
`delete` press issues only the plain key-press command, leaves `alt` held
and its auto-release timer live, and reports the still-active modifier. -/
theorem press_after_toggle_sends_plain_key :
    (handle_standard_key_press "delete" "Delete" true
        (handle_modifier_press "alt" initState).state).cmds =
      [Cmd.sendkeypress "delete"] ∧
    (handle_standard_key_press "delete" "Delete" true
        (handle_modifier_press "alt" initState).state).state.active_modifiers
      = ["alt"] ∧
    (handle_standard_key_press "delete" "Delete" true
        (handle_modifier_press "alt" initState).state).state.liveTimers
      = [0] ∧
    (handle_standard_key_press "delete" "Delete" true
        (handle_modifier_press "alt" initState).state).result.activeModifiers
      = ["alt"] := by
  refine ⟨rfl, rfl, rfl, rfl⟩

/-- C2: the claim says the session guard clears expired sessions, refreshes
`last_activity` otherwise, and never aborts.  In the code, any session that
carries both keys makes the guard read the nonexistent attribute
`config.SESSION_TIMEOUT` (only `SESSION_TIMEOUT_MINUTES` is defined), an
unhandled `AttributeError`, for every possible config file; and sessions
produced by `login` lack `last_activity`, so the guard neither clears nor
refreshes them. -/
theorem session_guard_aborts (configData : List (String × PyVal))
    (p1 r1 : String) (now la : Int) :
    (before_request true false (Config.init configData p1 r1) 120 [] now
        ⟨some true, some la⟩).1 =
      BeforeResponse.attributeError "SESSION_TIMEOUT" ∧
    (before_request true false (Config.init configData p1 r1) 120 [] now
        ⟨some true, none⟩).2.2 = ⟨some true, none⟩ := by
  exact ⟨rfl, rfl⟩

/-- C3: the claim says a successful login sets the authenticated flag and
`last_activity = now`.  The code only sets `session["logged_in"] = True`;
`last_activity` stays absent, so the idle-expiry check of `before_request`
never applies to the session and never refreshes it. -/
theorem login_omits_last_activity :
    login "admin" "password" "admin" "password" ⟨none, none⟩ =
      (⟨some true, none⟩, true) ∧
    (before_request true false (Config.init [] "dev1" "rec1") 120 [] 0
        (login "admin" "password" "admin" "password" ⟨none, none⟩).1).2.2
      = ⟨some true, none⟩ := by
  exact ⟨rfl, rfl⟩

/-- C7: `_clear_modifier_state` on an already-empty set issues no key-up
commands, leaves the set empty and the timer handle absent, and a second
clear is exactly the first (idempotence), so any number of successive calls
equals one call. -/
theorem force_clear_noop_on_empty (s : ModifierState)
    (h : s.active_modifiers = []) :
    (clear_modifier_state s).2 = [] ∧
    (clear_modifier_state s).1.active_modifiers = [] ∧
    (clear_modifier_state s).1.modifier_key_timer = none ∧
    ∀ s' : ModifierState,
      clear_modifier_state (clear_modifier_state s').1 =
        ((clear_modifier_state s').1, []) := by
  refine ⟨by simp [clear_modifier_state, h], rfl, rfl, fun s' => rfl⟩

/-- Witness for C7 at the freshly initialised state. -/
theorem force_clear_noop_on_empty_witness :
    (clear_modifier_state initState).2 = [] ∧
    clear_modifier_state (clear_modifier_state initState).1 =
      ((clear_modifier_state initState).1, []) :=
  ⟨(force_clear_noop_on_empty initState rfl).1,
   (force_clear_noop_on_empty initState rfl).2.2.2 initState⟩

/-- C8: when the System Probe raises, `_update_running_apps_cache` leaves
the previous snapshot and its capture timestamp in place, and the
`is_running` membership check still returns a boolean computed against that
last-known snapshot. -/
theorem probe_failure_keeps_snapshot (force : Bool) (now : Int)
    (st : CacheState) (name : String) :
    update_running_apps_cache force now none st = st ∧
    is_running name (update_running_apps_cache force now none st) =
      st.running_apps_cache.contains name := by
  have h1 : update_running_apps_cache force now none st = st := by
    unfold update_running_apps_cache
    split <;> rfl
  exact ⟨h1, by rw [h1]; rfl⟩

/-- C10: `_set_volume` clamps every integer input into 0-100 before applying
it, reports the clamped value in its success message, and out-of-range
inputs do not produce an error (negatives act as 0, values above 100 act as
100). -/
theorem set_volume_clamps (errMsg : String) (value : Int) :
    (set_volume true errMsg value).1.success = true ∧
    (set_volume true errMsg value).2 = some (max 0 (min 100 value)) ∧
    0 ≤ max 0 (min 100 value) ∧ max 0 (min 100 value) ≤ 100 ∧
    (set_volume true errMsg value).1.message =
      "Volume set to " ++ toString (max 0 (min 100 value)) ++ "%" ∧
    (value < 0 → max 0 (min 100 value) = 0) ∧
    (100 < value → max 0 (min 100 value) = 100) := by
  refine ⟨rfl, rfl, ?_, ?_, rfl, ?_, ?_⟩ <;> intros <;> omega

/-- C4: each `_rate_limit_check` call prunes the client's timestamps older
than sixty seconds, rejects without recording when the pruned count has
reached the budget and records-and-accepts otherwise; consequently a burst
of `maxPerMinute + 1` requests within one second of each other (from a
fresh log) yields exactly `maxPerMinute` accepts followed by one reject,
and once the full window has elapsed a further request is accepted. -/
theorem rate_limit_sliding_window (maxPerMinute : Nat) (t0 now : Int)
    (ts : List Int) (hlen : ts.length = maxPerMinute + 1)
    (hts : ∀ t ∈ ts, t0 ≤ t ∧ t ≤ t0 + 1000) (hmax : 1 ≤ maxPerMinute)
    (hnow : t0 + 61000 ≤ now) :
    (∀ (l : List Int) (n : Int),
      (maxPerMinute ≤ (l.filter (fun u => decide (n - 60000 < u))).length →
        rate_limit_check maxPerMinute l n =
          (false, l.filter (fun u => decide (n - 60000 < u)))) ∧
      ((l.filter (fun u => decide (n - 60000 < u))).length < maxPerMinute →
        rate_limit_check maxPerMinute l n =
          (true, l.filter (fun u => decide (n - 60000 < u)) ++ [n]))) ∧
    (run_rate_limit maxPerMinute [] ts).1 =
      List.replicate maxPerMinute true ++ [false] ∧
    (rate_limit_check maxPerMinute (run_rate_limit maxPerMinute [] ts).2
        now).1 = true := by
  obtain ⟨hres, hbound⟩ := run_burst_aux maxPerMinute t0 ts [] hts
    (by intro x hx; cases hx)
  refine ⟨?_, ?_, ?_⟩
  · intro l n
    constructor
    · intro h
      simp only [rate_limit_check]
      rw [if_pos h]
    · intro h
      simp only [rate_limit_check]
      rw [if_neg (by omega)]
  · rw [hres, hlen]
    simpa using range_map_decide maxPerMinute
  · have hnil : ((run_rate_limit maxPerMinute [] ts).2).filter
        (fun u => decide (now - 60000 < u)) = [] :=
      filter_window_none now _ (fun x hx => by have := hbound x hx; omega)
    simp only [rate_limit_check, hnil]
    rw [if_neg (by simp; omega)]

/-- Witness for C4 with budget 1, a burst at times 5 and 6, and a retry at
time 61005 after the window has fully elapsed. -/
theorem rate_limit_sliding_window_witness :
    (run_rate_limit 1 [] [5, 6]).1 = [true, false] ∧
    (rate_limit_check 1 (run_rate_limit 1 [] [5, 6]).2 61005).1 = true := by
  have h := rate_limit_sliding_window 1 5 61005 [5, 6] (by decide)
    (by decide) (by decide) (by decide)
  exact ⟨h.2.1, h.2.2⟩

/-- C5: `_handle_modifier_press` toggles membership — adding an absent
modifier with "is active." feedback, removing a held one with "released."
feedback — the reported `activeModifiers` equal the resulting set, toggling
the same modifier twice restores the set (as a set), and toggling `N`
distinct modifiers from the empty initial state yields a set of size `N`. -/
theorem toggle_modifier_spec (m : String) (s : ModifierState)
    (ms : List String) (hnd : s.active_modifiers.Nodup)
    (hms : ms.Nodup) :
    (m ∉ s.active_modifiers →
      (handle_modifier_press m s).state.active_modifiers =
        s.active_modifiers ++ [m] ∧
      (handle_modifier_press m s).result.message =
        pyCapitalize m ++ " is active.") ∧
    (m ∈ s.active_modifiers →
      (handle_modifier_press m s).state.active_modifiers =
        s.active_modifiers.erase m ∧
      (handle_modifier_press m s).result.message =
        pyCapitalize m ++ " released.") ∧
    (handle_modifier_press m s).result.activeModifiers =
      (handle_modifier_press m s).state.active_modifiers ∧
    ((handle_modifier_press m
        (handle_modifier_press m s).state).state.active_modifiers).Perm
      s.active_modifiers ∧
    (toggle_sequence ms initState).active_modifiers.length = ms.length := by
  refine ⟨?_, ?_, ?_, ?_, ?_⟩
  · intro hm
    refine ⟨by rw [toggle_set_eq, if_neg hm], ?_⟩
    simp [handle_modifier_press, cancelTracked_active, hm]
  · intro hm
    refine ⟨by rw [toggle_set_eq, if_pos hm], ?_⟩
    simp [handle_modifier_press, cancelTracked_active, hm]
  · rfl
  · by_cases hm : m ∈ s.active_modifiers
    · have h1 : (handle_modifier_press m s).state.active_modifiers =
          s.active_modifiers.erase m := by rw [toggle_set_eq, if_pos hm]
      have hm2 : m ∉ s.active_modifiers.erase m := by
        intro hcon
        exact (hnd.mem_erase_iff.mp hcon).1 rfl
      have h2 : (handle_modifier_press m
          (handle_modifier_press m s).state).state.active_modifiers =
          s.active_modifiers.erase m ++ [m] := by
        rw [toggle_set_eq, h1, if_neg hm2]
      rw [h2]
      exact (List.perm_append_singleton m _).trans
        (List.perm_cons_erase hm).symm
    · have h1 : (handle_modifier_press m s).state.active_modifiers =
          s.active_modifiers ++ [m] := by rw [toggle_set_eq, if_neg hm]
      have hm2 : m ∈ s.active_modifiers ++ [m] := by simp
      have h2 : (handle_modifier_press m
          (handle_modifier_press m s).state).state.active_modifiers =
          s.active_modifiers := by
        rw [toggle_set_eq, h1, if_pos hm2,
          List.erase_append_right [m] hm, List.erase_cons_head]
        simp
      rw [h2]
  · rw [toggle_sequence_fresh ms initState hms
      (by intro x _; simp [initState])]
    simp [initState]

/-- Witness for C5 at the initial state with modifier alt and the distinct
sequence ctrl, shift. -/
theorem toggle_modifier_spec_witness :
    (handle_modifier_press "alt" initState).state.active_modifiers =
      ["alt"] ∧
    (handle_modifier_press "alt" initState).result.message =
      "Alt is active." ∧
    (toggle_sequence ["ctrl", "shift"] initState).active_modifiers.length
      = 2 := by
  have h := toggle_modifier_spec "alt" initState ["ctrl", "shift"]
    (by decide) (by decide)
  have h1 := h.1 (by decide)
  refine ⟨?_, ?_, ?_⟩
  · rw [h1.1]; rfl
  · rw [h1.2]; rfl
  · rw [h.2.2.2.2]; rfl

/-- C6: every modifier operation — toggle, consume-on-key-press (both of
its branches), `_clear_modifier_state` and the auto-release timer firing —
preserves the machine invariant (held set non-empty iff a live timer
exists, at most one live timer, every live timer is the tracked one), and
the guarded cancel step that precedes any reschedule or clear always leaves
zero live timers. -/
theorem modifier_state_machine_invariant (m key msg : String) (ok : Bool)
    (s : ModifierState) (h : modInvariant s) :
    modInvariant (handle_modifier_press m s).state ∧
    modInvariant (handle_standard_key_press key msg ok s).state ∧
    modInvariant (clear_modifier_state s).1 ∧
    modInvariant (modifier_timer_fire s).1 ∧
    (cancelTrackedTimer s).liveTimers = [] :=
  ⟨modInvariant_toggle m s h, modInvariant_press key msg ok s h,
   modInvariant_clear s h, modInvariant_fire s h,
   cancelTracked_live_nil s h⟩

/-- Witness for C6 at the freshly initialised state. -/
theorem modifier_state_machine_invariant_witness :
    modInvariant (handle_modifier_press "alt" initState).state ∧
    modInvariant (handle_standard_key_press "delete" "Delete" true
        initState).state ∧
    modInvariant (clear_modifier_state initState).1 ∧
    modInvariant (modifier_timer_fire initState).1 ∧
    (cancelTrackedTimer initState).liveTimers = [] :=
  modifier_state_machine_invariant "alt" "delete" "Delete" true initState
    (by decide)

/-- C9: for an app whose registry entry has `closable = false` and whose
process is reported running after the forced cache refresh, `app_toggle`
returns success with `running = true` and the "cannot be close" message,
issues no command at all (in particular no taskkill), and leaves the state
exactly as the single refresh left it. -/
theorem nonclosable_running_app_toggle (home app_name : String)
    (appCfg : AppConfig) (probe1 probe2 : Option (List (Option String)))
    (taskkillOk popenOk : Bool) (popenErr : String) (now1 now2 : Int)
    (st : CacheState)
    (hlook : (define_apps home).lookup app_name = some appCfg)
    (hclos : appCfg.closable = some false)
    (hrun : pyLower (appCfg.process_name.getD appCfg.exe) ∈
      (update_running_apps_cache true now1 probe1 st).running_apps_cache) :
    app_toggle home app_name probe1 probe2 taskkillOk popenOk popenErr
        now1 now2 st =
      ({ success := true, message := "cannot be close " ++ pyTitle app_name,
         running := some true },
       update_running_apps_cache true now1 probe1 st, []) := by
  unfold app_toggle
  rw [hlook]
  dsimp only
  rw [if_pos hrun]
  simp [hclos]

/-- Witness for C9: toggling the non-closable task manager while its
process is reported running. -/
theorem nonclosable_running_app_toggle_witness :
    app_toggle "HOME" "task_manager" (some [some "Taskmgr.exe"]) none true
        true "" 0 0 ⟨[], 0⟩ =
      ({ success := true, message := "cannot be close Task_Manager",
         running := some true },
       ⟨["taskmgr.exe"], 0⟩, []) := by
  have h := nonclosable_running_app_toggle "HOME" "task_manager"
    ⟨"Taskmgr.exe", some "taskmgr.exe", "taskmgr", some false⟩
    (some [some "Taskmgr.exe"]) none true true "" 0 0 ⟨[], 0⟩
    (by rfl) rfl (by decide)
  rw [h]
  rfl

/-- Witness for C10 at the out-of-range inputs -5 and 250. -/
theorem set_volume_clamps_witness :
    (set_volume true "" (-5)).2 = some 0 ∧
    (set_volume true "" 250).2 = some 100 ∧
    (set_volume true "" 250).1.message = "Volume set to 100%" := by
  have h1 := set_volume_clamps "" (-5)
  have h2 := set_volume_clamps "" 250
  refine ⟨?_, ?_, ?_⟩
  · rw [h1.2.1]; decide
  · rw [h2.2.1]; decide
  · rw [h2.2.2.2.2.1]; decide

end RemotePC
